import Mathlib

/-!
Verification of the procedural distribution and dual-state blending engine of
the Beautiful-Christmas-Tree repository.  JavaScript numbers are modelled by
exact rationals; the per-frame callbacks become pure step functions on
explicit state.  Functions of the repository's src/utils/math module, which is
absent from the sources, are modelled from the specification and marked so in
their doc comments; everything else is translated directly from the sources.
-/

/-- 3D vector with rational components (models THREE.Vector3 and THREE.Euler
payloads). -/
structure Vec3 where
  x : ℚ
  y : ℚ
  z : ℚ
  deriving DecidableEq

/-- Modelled from the spec: the lerp helper of src/utils/math (a file absent
from the sources).  Section 4.2 describes the smoothing primitive it
implements as newCurrent = current + (target - current) * min(rate * dt, 1);
the callers pass the already multiplied factor rate * dt as the third
argument, so lerp a b t = a + (b - a) * min t 1. -/
def lerp (a b t : ℚ) : ℚ := a + (b - a) * min t 1

/-- THREE.MathUtils.lerp of the three.js library: x + (y - x) * t, with no
clamping of the factor. -/
def threeLerp (x y t : ℚ) : ℚ := x + (y - x) * t

/-- THREE.Vector3.lerpVectors of the three.js library: componentwise
unclamped interpolation from a to b by t. -/
def threeLerpVectors (a b : Vec3) (t : ℚ) : Vec3 :=
  ⟨threeLerp a.x b.x t, threeLerp a.y b.y t, threeLerp a.z b.z t⟩

/-- Scalar multiple of a vector (THREE.Vector3.multiplyScalar). -/
def smul (k : ℚ) (v : Vec3) : Vec3 := ⟨k * v.x, k * v.y, k * v.z⟩

/-- Membership of the straight segment from a to b. -/
def onSegment (a b p : Vec3) : Prop :=
  ∃ u : ℚ, 0 ≤ u ∧ u ≤ 1 ∧ p = threeLerpVectors a b u

/-- Ornament kind: the type prop of the Ornaments component. -/
inductive OrnamentType where
  | BALL | BOX | STAR | CANDY | CRYSTAL | PHOTO
  deriving DecidableEq

/-- Per-object immutable data, the OrnamentData interface of the Ornaments
module.  The color field is omitted: no claim concerns it. -/
structure OrnamentData where
  chaosPos : Vec3
  targetPos : Vec3
  rotation : Vec3
  targetScale : Vec3
  chaosScale : Vec3
  chaosTilt : ℚ
  deriving DecidableEq

/-- Orientation written to an instance on a frame: either a static Euler
rotation copied from the object's data, or the result of
dummy.lookAt(target) followed by dummy.rotateX(pi / 2) (star tip out). -/
inductive Orient where
  | euler (e : Vec3)
  | lookAtThenTipOut (target : Vec3)
  deriving DecidableEq

/-- Point of the central vertical axis at the height of p: the argument
(0, currentPos.y, 0) passed to dummy.lookAt by the STAR branch. -/
def axisPoint (p : Vec3) : Vec3 := ⟨0, p.y, 0⟩

/-- One instance update of the Ornaments frame loop: position, orientation and
scale computed for one object from the population's blended mix t. -/
def ornamentFrameTick (ty : OrnamentType) (item : OrnamentData) (t : ℚ) :
    Vec3 × Orient × Vec3 :=
  let currentPos := threeLerpVectors item.chaosPos item.targetPos t
  let orient :=
    if ty = OrnamentType.STAR ∧ 4 / 5 < t then
      Orient.lookAtThenTipOut (axisPoint currentPos)
    else
      Orient.euler item.rotation
  let currentScale := threeLerpVectors item.chaosScale item.targetScale t
  (currentPos, orient, currentScale)

/-- One smoothing update of a current mix toward mixFactor with frame delta
dt: currentMixRef.current = lerp(currentMixRef.current, mixFactor,
2.0 * delta), as performed by SpiralLights, Ornaments and PhotoFrameMesh. -/
def blendStep (current mixFactor dt : ℚ) : ℚ := lerp current mixFactor (2 * dt)

/-- Iterated blend updates from an initial value over a list of
(mixFactor, dt) frame inputs. -/
def blendRun (init : ℚ) (steps : List (ℚ × ℚ)) : ℚ :=
  steps.foldl (fun c p => blendStep c p.1 p.2) init

/-- SpiralLights per-instance blended position, computed with the
repository lerp componentwise. -/
def spiralFramePos (chaos target : Vec3) (t : ℚ) : Vec3 :=
  ⟨lerp chaos.x target.x t, lerp chaos.y target.y t, lerp chaos.z target.z t⟩

/-- SpiralLights per-instance scale: Math.sin(time * 3 + i * 0.1) * 0.05
+ 0.15, where sv stands for the value taken by the sine.  The blend does not
enter this computation. -/
def spiralPulseScale (sv : ℚ) : ℚ := sv * (1 / 20) + 3 / 20

/-- PhotoFrameMesh blended position: vecPos.lerpVectors(item.chaosPos,
item.targetPos, t). -/
def photoFramePos (item : OrnamentData) (t : ℚ) : Vec3 :=
  threeLerpVectors item.chaosPos item.targetPos t

/-- PhotoFrameMesh blended scale: vecScale.lerpVectors(item.chaosScale,
item.targetScale, t). -/
def photoFrameScale (item : OrnamentData) (t : ℚ) : Vec3 :=
  threeLerpVectors item.chaosScale item.targetScale t

/-- Mutable state of SceneController: smoothed input, camera position,
rotation physics refs and the rotating group's angle. -/
structure SceneState where
  inputX : ℚ
  inputY : ℚ
  camX : ℚ
  camY : ℚ
  camZ : ℚ
  velocity : ℚ
  lastX : ℚ
  angle : ℚ
  deriving DecidableEq

/-- Velocity accumulator update of SceneController:
velocity.current += deltaX * 0.5; velocity.current *= 0.95. -/
def velocityStep (v deltaX : ℚ) : ℚ := (v + deltaX * (1 / 2)) * (19 / 20)

/-- One SceneController frame with raw input target (targetX, targetY) and
frame delta dt: input smoothing, camera parallax and tree momentum physics. -/
def sceneStep (s : SceneState) (targetX targetY dt : ℚ) : SceneState :=
  let safeDelta := min dt (1 / 10)
  let inputSmoothing := 3 * safeDelta
  let ix := threeLerp s.inputX targetX inputSmoothing
  let iy := threeLerp s.inputY targetY inputSmoothing
  let camTX := ix * 4
  let camTY := iy * 2
  let camTZ := 32 + |ix| * 2
  let a := 2 * safeDelta
  let cx := s.camX + (camTX - s.camX) * a
  let cy := s.camY + (camTY - s.camY) * a
  let cz := s.camZ + (camTZ - s.camZ) * a
  let deltaX := ix - s.lastX
  let v := velocityStep s.velocity deltaX
  { inputX := ix, inputY := iy, camX := cx, camY := cy, camZ := cz,
    velocity := v, lastX := ix, angle := s.angle + 1 / 500 + v }

/-- Initial SceneController state: the refs start at 0 and the camera at
position [0, 0, 32]. -/
def sceneInit : SceneState :=
  { inputX := 0, inputY := 0, camX := 0, camY := 0, camZ := 32,
    velocity := 0, lastX := 0, angle := 0 }

/-- Velocity accumulator after n ticks during which the smoothed horizontal
input no longer changes (deltaX = 0 on every tick). -/
def velIter (v0 : ℚ) : ℕ → ℚ
  | 0 => v0
  | n + 1 => velocityStep (velIter v0 n) 0

/-- Inbound gesture sample: the HandGesture interface. -/
structure HandGesture where
  isDetected : Bool
  isOpen : Bool
  posX : ℚ
  posY : ℚ
  deriving DecidableEq

/-- App-level control state: the targetMix state, the pointer input ref and
the detection flag. -/
structure AppControlState where
  targetMix : ℚ
  inputX : ℚ
  inputY : ℚ
  gestureDetected : Bool
  deriving DecidableEq

/-- The handleGesture callback of App: on a detected sample, map isOpen to the
mix target (open gives 0, closed gives 1) and store the amplified pointer
input; otherwise only record the detection flag. -/
def handleGesture (d : HandGesture) (s : AppControlState) : AppControlState :=
  if d.isDetected then
    { targetMix := if d.isOpen then 0 else 1,
      inputX := d.posX * (6 / 5), inputY := d.posY, gestureDetected := true }
  else
    { s with gestureDetected := false }

/-- The handleFileChange callback of App: with a non-empty file list, keep at
most 30 files and map each to an object URL (mkUrl abstracts
URL.createObjectURL); with an empty list the state is left alone. -/
def handleFileChange (mkUrl : String → String) (prev files : List String) :
    List String :=
  if 0 < files.length then (files.take 30).map mkUrl else prev

/-- The photoCount value of SceneContent: the image count if images exist,
else the default 10. -/
def photoCount (userImages : List String) : ℕ :=
  if 0 < userImages.length then userImages.length else 10

/-- Ornaments data generation loop: one OrnamentData per index i < count; the
random draws of item i are abstracted into mk. -/
def ornamentsData (count : ℕ) (mk : ℕ → OrnamentData) : List OrnamentData :=
  (List.range count).map mk

/-- Photo chaos radius: 14 + Math.random() * 4, with u2 the random draw. -/
def photoChaosRadius (u2 : ℚ) : ℚ := 14 + u2 * 4

/-- Photo chaos height: (Math.random() - 0.5) * 20, with u3 the random
draw. -/
def photoChaosHeight (u3 : ℚ) : ℚ := (u3 - 1 / 2) * 20

/-- Photo chaos position: the cylindrical placement
(radius * cos theta, height, radius * sin theta) of the PHOTO branch; c and s
stand for the cosine and sine of the uniformly drawn angle
theta = 2 * pi * u1, so they satisfy c^2 + s^2 = 1. -/
def photoChaosPos (c s u2 u3 : ℚ) : Vec3 :=
  ⟨photoChaosRadius u2 * c, photoChaosHeight u3, photoChaosRadius u2 * s⟩

/-- Modelled from the spec: generateFoliageData of src/utils/math (a file
absent from the sources) samples points on the lateral surface of a cone of
height H and base radius R, so a point at height fraction hf in [0, 1] with
angle cosine c and sine s has horizontal radius R * (1 - hf). -/
def coneSurfacePoint (H R hf c s : ℚ) : Vec3 :=
  ⟨R * (1 - hf) * c, H * hf - H / 2, R * (1 - hf) * s⟩

/-- Push-out factor applied to ornament target positions: 1.15 for STAR,
1.08 otherwise. -/
def pushOut (ty : OrnamentType) : ℚ :=
  if ty = OrnamentType.STAR then 23 / 20 else 27 / 25

/-- Tree outer radius: the foliage cone base radius 7 (the ornaments call
generateFoliageData with height 18 and radius 7) times the largest push-out
factor 1.15; this also exceeds the spiral strip radius 7.5 of
generateSpiralData(count, 19, 7.5, 9). -/
def treeOuterRadius : ℚ := 7 * (23 / 20)

/-- SpiralLights layout-effect initial transform: each instance starts at its
target position with scalar scale 0.12. -/
def spiralLayoutInit (target : Vec3) : Vec3 × ℚ := (target, 3 / 25)

/-- Ornaments layout-effect initial transform for the non-PHOTO populations
(the effect returns early for PHOTO, and PhotoFrameMesh has no layout
effect): target position, target scale and static rotation. -/
def ornamentLayoutInit (item : OrnamentData) : Vec3 × Vec3 × Vec3 :=
  (item.targetPos, item.targetScale, item.rotation)

/-- Initial smoothed mix of the spiral strip: useRef(1) in SpiralLights. -/
def spiralInitialMix : ℚ := 1

/-- Initial smoothed mix of each PhotoFrameMesh: useRef(1). -/
def photoInitialMix : ℚ := 1

/-- Initial shared smoothed mix of an Ornaments population: useRef(1). -/
def ornamentsInitialMix : ℚ := 1

/-- Initial external mix target of the App: useState(1). -/
def appInitialTargetMix : ℚ := 1

/-- Interpolation from a by factor 0 returns a. -/
lemma threeLerp_zero (x y : ℚ) : threeLerp x y 0 = x := by
  simp [threeLerp]

/-- Interpolation from a to b by factor 1 returns b. -/
lemma threeLerp_one (x y : ℚ) : threeLerp x y 1 = y := by
  simp [threeLerp]

/-- Componentwise interpolation by 0 returns the start vector. -/
lemma threeLerpVectors_zero (a b : Vec3) : threeLerpVectors a b 0 = a := by
  simp [threeLerpVectors, threeLerp_zero]

/-- Componentwise interpolation by 1 returns the end vector. -/
lemma threeLerpVectors_one (a b : Vec3) : threeLerpVectors a b 1 = b := by
  simp [threeLerpVectors, threeLerp_one]

/-- For factors at most 1, the repository lerp agrees with the unclamped
library lerp. -/
lemma lerp_eq_threeLerp (x y t : ℚ) (h : t ≤ 1) : lerp x y t = threeLerp x y t := by
  rw [lerp, threeLerp, min_eq_left h]

/-- For factors at most 1, the spiral blended position agrees with the
componentwise library interpolation. -/
lemma spiralFramePos_eq (a b : Vec3) (t : ℚ) (h : t ≤ 1) :
    spiralFramePos a b t = threeLerpVectors a b t := by
  simp [spiralFramePos, threeLerpVectors, lerp_eq_threeLerp _ _ _ h]

/-- The position component of an ornament instance update. -/
lemma ornamentFrameTick_pos (ty : OrnamentType) (item : OrnamentData) (t : ℚ) :
    (ornamentFrameTick ty item t).1 = threeLerpVectors item.chaosPos item.targetPos t := rfl

/-- The scale component of an ornament instance update. -/
lemma ornamentFrameTick_scale (ty : OrnamentType) (item : OrnamentData) (t : ℚ) :
    (ornamentFrameTick ty item t).2.2 = threeLerpVectors item.chaosScale item.targetScale t := rfl

/-- One blend update keeps the mix inside the unit interval whenever the
current value and the target are inside it and the frame delta is positive. -/
lemma blendStep_mem (c tgt dt : ℚ) (hc0 : 0 ≤ c) (hc1 : c ≤ 1)
    (ht0 : 0 ≤ tgt) (ht1 : tgt ≤ 1) (hdt : 0 < dt) :
    0 ≤ blendStep c tgt dt ∧ blendStep c tgt dt ≤ 1 := by
  unfold blendStep lerp
  rcases le_total (2 * dt) 1 with h | h
  · rw [min_eq_left h]
    constructor <;> nlinarith
  · rw [min_eq_right h]
    constructor <;> nlinarith

/-- Iterated blend updates keep the mix inside the unit interval. -/
lemma blendRun_mem (steps : List (ℚ × ℚ))
    (h : ∀ p ∈ steps, (0 ≤ p.1 ∧ p.1 ≤ 1) ∧ 0 < p.2) :
    ∀ c, 0 ≤ c → c ≤ 1 → 0 ≤ blendRun c steps ∧ blendRun c steps ≤ 1 := by
  induction steps with
  | nil => intro c hc0 hc1; simpa [blendRun] using ⟨hc0, hc1⟩
  | cons p rest ih =>
    intro c hc0 hc1
    have hp := h p (List.mem_cons_self p rest)
    have hstep := blendStep_mem c p.1 p.2 hc0 hc1 hp.1.1 hp.1.2 hp.2
    have hrec := ih (fun q hq => h q (List.mem_cons_of_mem _ hq)) _ hstep.1 hstep.2
    simpa [blendRun] using hrec

/-- Closed form of the velocity accumulator when the smoothed input has
stopped changing. -/
lemma velIter_eq (v0 : ℚ) (n : ℕ) : velIter v0 n = (19 / 20) ^ n * v0 := by
  induction n with
  | zero => simp [velIter]
  | succ n ih =>
    simp only [velIter, velocityStep, ih, pow_succ]
    ring

/-- C3: each population's smoothed blend value stays in the interval [0, 1]
after every frame tick, for every sequence of external mix targets in [0, 1]
and every sequence of positive frame deltas, starting from the initial blend
value 1. -/
theorem blend_invariant (steps : List (ℚ × ℚ))
    (h : ∀ p ∈ steps, (0 ≤ p.1 ∧ p.1 ≤ 1) ∧ 0 < p.2) :
    0 ≤ blendRun 1 steps ∧ blendRun 1 steps ≤ 1 :=
  blendRun_mem steps h 1 (by norm_num) (by norm_num)

/-- Witness for blend_invariant at the concrete run with target 0 and frame
delta 1 (a delta far past the 0.1 cap). -/
theorem blend_invariant_witness :
    0 ≤ blendRun 1 [((0 : ℚ), (1 : ℚ))] ∧ blendRun 1 [((0 : ℚ), (1 : ℚ))] ≤ 1 :=
  blend_invariant [((0 : ℚ), (1 : ℚ))]
    (by intro p hp; simp only [List.mem_singleton] at hp; subst hp; norm_num)

/-- C1 counterexample: the per-population blend update does not clamp the
frame delta at 0.1; from current mix 1 and target 0, a tick with dt = 1
produces a different new value than a tick with dt = 0.1. -/
theorem blend_dt_clamp_counterexample :
    blendStep 1 0 1 ≠ blendStep 1 0 (1 / 10) := by
  norm_num [blendStep, lerp, min_def]

/-- C1 amended: the pointer-input and camera-position smoothing of
SceneController clamp the frame delta at 0.1 (any dt at least 0.1 produces
exactly the step of dt = 0.1), while the per-population blend smoothing uses
the raw dt, so there a tick with dt above the cap can differ from one at the
cap. -/
theorem dt_clamp_amended (s : SceneState) (tx ty dt : ℚ) (h : 1 / 10 ≤ dt) :
    sceneStep s tx ty dt = sceneStep s tx ty (1 / 10) ∧
    blendStep 1 0 1 ≠ blendStep 1 0 (1 / 10) := by
  refine ⟨?_, ?_⟩
  · unfold sceneStep
    rw [min_eq_right h, min_self]
  · norm_num [blendStep, lerp, min_def]

/-- Witness for dt_clamp_amended at the initial scene state with dt = 1. -/
theorem dt_clamp_amended_witness :
    sceneStep sceneInit 0 0 1 = sceneStep sceneInit 0 0 (1 / 10) ∧
    blendStep 1 0 1 ≠ blendStep 1 0 (1 / 10) :=
  dt_clamp_amended sceneInit 0 0 1 (by norm_num)

/-- C7: a detected gesture sample sets the mix target to 0 when the hand is
open and 1 when it is closed and stores the pointer input with the horizontal
coordinate amplified by 1.2; an undetected sample leaves the pointer input at
its previous value. -/
theorem gesture_mapping (d : HandGesture) (s : AppControlState) :
    (d.isDetected = true →
      (handleGesture d s).targetMix = (if d.isOpen then 0 else 1) ∧
      (handleGesture d s).inputX = d.posX * (6 / 5) ∧
      (handleGesture d s).inputY = d.posY) ∧
    (d.isDetected = false →
      (handleGesture d s).inputX = s.inputX ∧
      (handleGesture d s).inputY = s.inputY) := by
  constructor <;> intro h <;> simp [handleGesture, h]

/-- Witness for gesture_mapping: a detected open-hand sample at (0.5, 0.25)
and an undetected sample, both from a concrete control state. -/
theorem gesture_mapping_witness :
    ((handleGesture ⟨true, true, 1 / 2, 1 / 4⟩ ⟨1, 0, 0, false⟩).targetMix = 0 ∧
      (handleGesture ⟨true, true, 1 / 2, 1 / 4⟩ ⟨1, 0, 0, false⟩).inputX = (1 / 2) * (6 / 5) ∧
      (handleGesture ⟨true, true, 1 / 2, 1 / 4⟩ ⟨1, 0, 0, false⟩).inputY = 1 / 4) ∧
    ((handleGesture ⟨false, true, 1 / 2, 1 / 4⟩ ⟨1, 7, 8, true⟩).inputX = 7 ∧
      (handleGesture ⟨false, true, 1 / 2, 1 / 4⟩ ⟨1, 7, 8, true⟩).inputY = 8) := by
  refine ⟨?_, ?_⟩
  · have h := (gesture_mapping ⟨true, true, 1 / 2, 1 / 4⟩ ⟨1, 0, 0, false⟩).1 rfl
    simpa using h
  · exact (gesture_mapping ⟨false, true, 1 / 2, 1 / 4⟩ ⟨1, 7, 8, true⟩).2 rfl

/-- C2: for every object in every population and every blend t in [0, 1], the
rendered position of the spiral strip, of the instanced ornaments and of each
photo frame lies on the straight segment between the object's chaos and target
positions, equals the chaos position exactly at t = 0 and the target position
exactly at t = 1. -/
theorem position_on_segment (ty : OrnamentType) (item : OrnamentData)
    (a b : Vec3) (t : ℚ) (h0 : 0 ≤ t) (h1 : t ≤ 1) :
    onSegment a b (spiralFramePos a b t) ∧
    spiralFramePos a b 0 = a ∧ spiralFramePos a b 1 = b ∧
    onSegment item.chaosPos item.targetPos (ornamentFrameTick ty item t).1 ∧
    (ornamentFrameTick ty item 0).1 = item.chaosPos ∧
    (ornamentFrameTick ty item 1).1 = item.targetPos ∧
    onSegment item.chaosPos item.targetPos (photoFramePos item t) ∧
    photoFramePos item 0 = item.chaosPos ∧
    photoFramePos item 1 = item.targetPos := by
  refine ⟨⟨t, h0, h1, spiralFramePos_eq a b t h1⟩, ?_, ?_,
    ⟨t, h0, h1, ornamentFrameTick_pos ty item t⟩, ?_, ?_,
    ⟨t, h0, h1, rfl⟩, ?_, ?_⟩
  · rw [spiralFramePos_eq a b 0 (by norm_num), threeLerpVectors_zero]
  · rw [spiralFramePos_eq a b 1 le_rfl, threeLerpVectors_one]
  · rw [ornamentFrameTick_pos, threeLerpVectors_zero]
  · rw [ornamentFrameTick_pos, threeLerpVectors_one]
  · rw [photoFramePos, threeLerpVectors_zero]
  · rw [photoFramePos, threeLerpVectors_one]

/-- Witness for position_on_segment at blend 1/2 with concrete chaos and
target data. -/
theorem position_on_segment_witness :
    onSegment ⟨0, 0, 0⟩ ⟨2, 4, 6⟩ (spiralFramePos ⟨0, 0, 0⟩ ⟨2, 4, 6⟩ (1 / 2)) ∧
    spiralFramePos ⟨0, 0, 0⟩ ⟨2, 4, 6⟩ 0 = ⟨0, 0, 0⟩ ∧
    spiralFramePos ⟨0, 0, 0⟩ ⟨2, 4, 6⟩ 1 = ⟨2, 4, 6⟩ ∧
    onSegment (⟨0, 0, 0⟩ : Vec3) ⟨1, 2, 3⟩
      (ornamentFrameTick OrnamentType.BALL
        ⟨⟨0, 0, 0⟩, ⟨1, 2, 3⟩, ⟨0, 0, 0⟩, ⟨1, 1, 1⟩, ⟨1, 1, 1⟩, 0⟩ (1 / 2)).1 ∧
    (ornamentFrameTick OrnamentType.BALL
      ⟨⟨0, 0, 0⟩, ⟨1, 2, 3⟩, ⟨0, 0, 0⟩, ⟨1, 1, 1⟩, ⟨1, 1, 1⟩, 0⟩ 0).1 = ⟨0, 0, 0⟩ ∧
    (ornamentFrameTick OrnamentType.BALL
      ⟨⟨0, 0, 0⟩, ⟨1, 2, 3⟩, ⟨0, 0, 0⟩, ⟨1, 1, 1⟩, ⟨1, 1, 1⟩, 0⟩ 1).1 = ⟨1, 2, 3⟩ ∧
    onSegment (⟨0, 0, 0⟩ : Vec3) ⟨1, 2, 3⟩
      (photoFramePos ⟨⟨0, 0, 0⟩, ⟨1, 2, 3⟩, ⟨0, 0, 0⟩, ⟨1, 1, 1⟩, ⟨1, 1, 1⟩, 0⟩ (1 / 2)) ∧
    photoFramePos ⟨⟨0, 0, 0⟩, ⟨1, 2, 3⟩, ⟨0, 0, 0⟩, ⟨1, 1, 1⟩, ⟨1, 1, 1⟩, 0⟩ 0 = ⟨0, 0, 0⟩ ∧
    photoFramePos ⟨⟨0, 0, 0⟩, ⟨1, 2, 3⟩, ⟨0, 0, 0⟩, ⟨1, 1, 1⟩, ⟨1, 1, 1⟩, 0⟩ 1 = ⟨1, 2, 3⟩ :=
  position_on_segment OrnamentType.BALL
    ⟨⟨0, 0, 0⟩, ⟨1, 2, 3⟩, ⟨0, 0, 0⟩, ⟨1, 1, 1⟩, ⟨1, 1, 1⟩, 0⟩
    ⟨0, 0, 0⟩ ⟨2, 4, 6⟩ (1 / 2) (by norm_num) (by norm_num)

/-- C4 counterexample: the spiral strip's rendered scale is not the blend
interpolation of any fixed chaos and target scales: at the constant formed
blend 1, the pulse still takes two different values as the sine varies. -/
theorem spiral_scale_counterexample :
    ¬ ∃ cs ts : ℚ, ∀ sv : ℚ, -1 ≤ sv → sv ≤ 1 →
      spiralPulseScale sv = lerp cs ts 1 := by
  rintro ⟨cs, ts, h⟩
  have h1 := h 1 (by norm_num) (by norm_num)
  have h2 := h (-1) (by norm_num) (by norm_num)
  have h3 : spiralPulseScale 1 = spiralPulseScale (-1) := h1.trans h2.symm
  norm_num [spiralPulseScale] at h3

/-- C4 amended: the instanced ornament populations and the photo frames scale
by the componentwise interpolation of the object's immutable chaos and target
scales with the current blend; the spiral strip's scale is instead the
time-based pulse sin * 0.05 + 0.15, bounded in [0.1, 0.2] and independent of
the blend. -/
theorem scale_lerp_amended (ty : OrnamentType) (item : OrnamentData)
    (t sv : ℚ) (hs0 : -1 ≤ sv) (hs1 : sv ≤ 1) :
    (ornamentFrameTick ty item t).2.2 =
      threeLerpVectors item.chaosScale item.targetScale t ∧
    photoFrameScale item t = threeLerpVectors item.chaosScale item.targetScale t ∧
    spiralPulseScale sv = sv * (1 / 20) + 3 / 20 ∧
    1 / 10 ≤ spiralPulseScale sv ∧ spiralPulseScale sv ≤ 1 / 5 := by
  refine ⟨ornamentFrameTick_scale ty item t, rfl, rfl, ?_, ?_⟩ <;>
    simp only [spiralPulseScale] <;> nlinarith

/-- Witness for scale_lerp_amended at sine value 1 with concrete data. -/
theorem scale_lerp_amended_witness :
    (ornamentFrameTick OrnamentType.BALL
      ⟨⟨0, 0, 0⟩, ⟨1, 2, 3⟩, ⟨0, 0, 0⟩, ⟨1, 1, 1⟩, ⟨2, 2, 2⟩, 0⟩ (1 / 2)).2.2 =
      threeLerpVectors ⟨2, 2, 2⟩ ⟨1, 1, 1⟩ (1 / 2) ∧
    photoFrameScale ⟨⟨0, 0, 0⟩, ⟨1, 2, 3⟩, ⟨0, 0, 0⟩, ⟨1, 1, 1⟩, ⟨2, 2, 2⟩, 0⟩ (1 / 2) =
      threeLerpVectors ⟨2, 2, 2⟩ ⟨1, 1, 1⟩ (1 / 2) ∧
    spiralPulseScale 1 = 1 * (1 / 20) + 3 / 20 ∧
    1 / 10 ≤ spiralPulseScale 1 ∧ spiralPulseScale 1 ≤ 1 / 5 :=
  scale_lerp_amended OrnamentType.BALL
    ⟨⟨0, 0, 0⟩, ⟨1, 2, 3⟩, ⟨0, 0, 0⟩, ⟨1, 1, 1⟩, ⟨2, 2, 2⟩, 0⟩
    (1 / 2) 1 (by norm_num) (by norm_num)

/-- C5: a STAR object's orientation on a frame is the look-at of the point of
the central vertical axis at the object's own blended height (then tipped
out) exactly when the blend exceeds 0.8, and its static baseline rotation
when the blend is at or below 0.8. -/
theorem star_orientation (item : OrnamentData) (t : ℚ) :
    (4 / 5 < t →
      (ornamentFrameTick OrnamentType.STAR item t).2.1 =
        Orient.lookAtThenTipOut
          (axisPoint (threeLerpVectors item.chaosPos item.targetPos t))) ∧
    (t ≤ 4 / 5 →
      (ornamentFrameTick OrnamentType.STAR item t).2.1 = Orient.euler item.rotation) := by
  constructor
  · intro h
    simp [ornamentFrameTick, h]
  · intro h
    simp [ornamentFrameTick, not_lt.mpr h]

/-- Witness for star_orientation at blends 0.9 and 0.8 with concrete data. -/
theorem star_orientation_witness :
    (ornamentFrameTick OrnamentType.STAR
      ⟨⟨0, 0, 0⟩, ⟨1, 2, 3⟩, ⟨5, 6, 7⟩, ⟨1, 1, 1⟩, ⟨1, 1, 1⟩, 0⟩ (9 / 10)).2.1 =
      Orient.lookAtThenTipOut
        (axisPoint (threeLerpVectors ⟨0, 0, 0⟩ ⟨1, 2, 3⟩ (9 / 10))) ∧
    (ornamentFrameTick OrnamentType.STAR
      ⟨⟨0, 0, 0⟩, ⟨1, 2, 3⟩, ⟨5, 6, 7⟩, ⟨1, 1, 1⟩, ⟨1, 1, 1⟩, 0⟩ (4 / 5)).2.1 =
      Orient.euler ⟨5, 6, 7⟩ :=
  ⟨(star_orientation ⟨⟨0, 0, 0⟩, ⟨1, 2, 3⟩, ⟨5, 6, 7⟩, ⟨1, 1, 1⟩, ⟨1, 1, 1⟩, 0⟩
      (9 / 10)).1 (by norm_num),
   (star_orientation ⟨⟨0, 0, 0⟩, ⟨1, 2, 3⟩, ⟨5, 6, 7⟩, ⟨1, 1, 1⟩, ⟨1, 1, 1⟩, 0⟩
      (4 / 5)).2 (by norm_num)⟩

/-- C6: the PHOTO population's object count equals the length of the supplied
image list when it is non-empty, equals 10 when it is empty, the list itself
is capped at 30 entries at intake, and 5 supplied images yield exactly 5
photo objects. -/
theorem photo_population_sizing (mkUrl : String → String) (mk : ℕ → OrnamentData)
    (prev files imgs five : List String)
    (hne : imgs ≠ []) (h5 : five.length = 5) (hf : files ≠ []) :
    photoCount imgs = imgs.length ∧
    photoCount [] = 10 ∧
    (handleFileChange mkUrl prev files).length = min files.length 30 ∧
    (handleFileChange mkUrl prev files).length ≤ 30 ∧
    (ornamentsData (photoCount imgs) mk).length = photoCount imgs ∧
    photoCount five = 5 ∧
    (ornamentsData (photoCount five) mk).length = 5 := by
  have himg : 0 < imgs.length := List.length_pos.mpr hne
  have hfl : 0 < files.length := List.length_pos.mpr hf
  have h5pos : 0 < five.length := by omega
  have hcap : (handleFileChange mkUrl prev files).length = min files.length 30 := by
    rw [handleFileChange, if_pos hfl, List.length_map, List.length_take, min_comm]
  refine ⟨?_, rfl, hcap, ?_, ?_, ?_, ?_⟩
  · rw [photoCount, if_pos himg]
  · rw [hcap]; exact min_le_right _ _
  · rw [ornamentsData, List.length_map, List.length_range]
  · rw [photoCount, if_pos h5pos, h5]
  · rw [ornamentsData, List.length_map, List.length_range, photoCount, if_pos h5pos, h5]

/-- Witness for photo_population_sizing with a 2-image list, a 5-image list
and a 31-file upload. -/
theorem photo_population_sizing_witness :
    photoCount ["a", "b"] = 2 ∧
    photoCount [] = 10 ∧
    (handleFileChange id [] (List.replicate 31 "f")).length = min (List.replicate 31 "f").length 30 ∧
    (handleFileChange id [] (List.replicate 31 "f")).length ≤ 30 ∧
    (ornamentsData (photoCount ["a", "b"]) (fun _ => ⟨⟨0, 0, 0⟩, ⟨0, 0, 0⟩, ⟨0, 0, 0⟩,
      ⟨1, 1, 1⟩, ⟨1, 1, 1⟩, 0⟩)).length = photoCount ["a", "b"] ∧
    photoCount ["a", "b", "c", "d", "e"] = 5 ∧
    (ornamentsData (photoCount ["a", "b", "c", "d", "e"]) (fun _ => ⟨⟨0, 0, 0⟩, ⟨0, 0, 0⟩,
      ⟨0, 0, 0⟩, ⟨1, 1, 1⟩, ⟨1, 1, 1⟩, 0⟩)).length = 5 := by
  have h := photo_population_sizing id
    (fun _ => ⟨⟨0, 0, 0⟩, ⟨0, 0, 0⟩, ⟨0, 0, 0⟩, ⟨1, 1, 1⟩, ⟨1, 1, 1⟩, 0⟩)
    [] (List.replicate 31 "f") ["a", "b"] ["a", "b", "c", "d", "e"]
    (by simp) (by simp) (by simp)
  simpa using h

/-- C8: the velocity accumulator gains 0.5 times the frame delta of the
smoothed horizontal input and is then damped by 0.95, the group angle grows
by the base spin 0.002 plus the updated accumulator, and once the smoothed
input stops changing the velocity follows the closed form (19/20)^n * v0: its
magnitude is multiplied by exactly 19/20 each tick, never exceeds its starting
magnitude, and drops below any positive bound after enough ticks. -/
theorem momentum_decay (v0 : ℚ) (n : ℕ) (s : SceneState) (tx ty dt : ℚ) :
    (sceneStep s tx ty dt).velocity =
      velocityStep s.velocity ((sceneStep s tx ty dt).inputX - s.lastX) ∧
    (sceneStep s tx ty dt).angle =
      s.angle + 1 / 500 + (sceneStep s tx ty dt).velocity ∧
    velIter v0 n = (19 / 20) ^ n * v0 ∧
    |velIter v0 (n + 1)| = (19 / 20) * |velIter v0 n| ∧
    |velIter v0 n| ≤ |v0| ∧
    (∀ ε : ℚ, 0 < ε → ∃ m : ℕ, |velIter v0 m| < ε) := by
  refine ⟨rfl, rfl, velIter_eq v0 n, ?_, ?_, ?_⟩
  · have hstep : velIter v0 (n + 1) = velIter v0 n * (19 / 20) := by
      simp [velIter, velocityStep]
    rw [hstep, abs_mul, abs_of_pos (by norm_num : (0 : ℚ) < 19 / 20), mul_comm]
  · rw [velIter_eq, abs_mul, abs_pow, abs_of_pos (by norm_num : (0 : ℚ) < 19 / 20)]
    have hpow : ((19 : ℚ) / 20) ^ n ≤ 1 := pow_le_one₀ (by norm_num) (by norm_num)
    nlinarith [abs_nonneg v0, pow_nonneg (by norm_num : (0 : ℚ) ≤ 19 / 20) n]
  · intro ε hε
    rcases eq_or_ne v0 0 with hv | hv
    · exact ⟨0, by simpa [velIter, hv] using hε⟩
    · have habs : 0 < |v0| := abs_pos.mpr hv
      obtain ⟨m, hm⟩ :=
        exists_pow_lt_of_lt_one (div_pos hε habs) (by norm_num : (19 : ℚ) / 20 < 1)
      refine ⟨m, ?_⟩
      rw [velIter_eq, abs_mul, abs_pow, abs_of_pos (by norm_num : (0 : ℚ) < 19 / 20)]
      have := mul_lt_mul_of_pos_right hm habs
      rwa [div_mul_cancel₀ ε (ne_of_gt habs)] at this

/-- Witness for momentum_decay at v0 = 1, one tick, the initial scene state
and bound 1. -/
theorem momentum_decay_witness :
    velIter 1 1 = (19 / 20) ^ 1 * 1 ∧ ∃ m : ℕ, |velIter (1 : ℚ) m| < 1 := by
  have h := momentum_decay 1 1 sceneInit 0 0 0
  exact ⟨h.2.2.1, h.2.2.2.2.2 1 (by norm_num)⟩

/-- C9: a PHOTO chaos position is cylindrical: its horizontal distance from
the vertical axis is exactly the drawn radius, which stays in the band
[14, 18) whose lower bound strictly exceeds the tree's outer radius 8.05
(cone base 7 pushed out by at most 1.15), its height stays in [-10, 10), and
its squared horizontal distance strictly exceeds the squared tree outer
radius while every pushed-out tree surface point stays within it: no chaos
photo position lies inside the tree volume. -/
theorem photo_chaos_outside_tree (c s u2 u3 hfr cc ss p : ℚ)
    (hcs : c ^ 2 + s ^ 2 = 1) (hu2a : 0 ≤ u2) (hu2b : u2 < 1)
    (hu3a : 0 ≤ u3) (hu3b : u3 < 1)
    (hh0 : 0 ≤ hfr) (hh1 : hfr ≤ 1) (hcs2 : cc ^ 2 + ss ^ 2 = 1)
    (hp0 : 0 ≤ p) (hp1 : p ≤ 23 / 20) :
    (photoChaosPos c s u2 u3).x ^ 2 + (photoChaosPos c s u2 u3).z ^ 2
      = photoChaosRadius u2 ^ 2 ∧
    14 ≤ photoChaosRadius u2 ∧ photoChaosRadius u2 < 18 ∧
    -10 ≤ (photoChaosPos c s u2 u3).y ∧ (photoChaosPos c s u2 u3).y < 10 ∧
    treeOuterRadius < 14 ∧
    (smul p (coneSurfacePoint 18 7 hfr cc ss)).x ^ 2 +
      (smul p (coneSurfacePoint 18 7 hfr cc ss)).z ^ 2 ≤ treeOuterRadius ^ 2 ∧
    treeOuterRadius ^ 2 <
      (photoChaosPos c s u2 u3).x ^ 2 + (photoChaosPos c s u2 u3).z ^ 2 := by
  simp only [photoChaosPos, photoChaosRadius, photoChaosHeight, smul,
    coneSurfacePoint, treeOuterRadius]
  have hsq : ((14 + u2 * 4) * c) ^ 2 + ((14 + u2 * 4) * s) ^ 2 = (14 + u2 * 4) ^ 2 := by
    linear_combination (14 + u2 * 4) ^ 2 * hcs
  refine ⟨hsq, by nlinarith, by nlinarith, by nlinarith, by nlinarith, by norm_num, ?_, ?_⟩
  · have hq0 : 0 ≤ p * (7 * (1 - hfr)) := by nlinarith
    have hq1 : p * (7 * (1 - hfr)) ≤ 7 * (23 / 20) := by nlinarith
    have he : (p * (7 * (1 - hfr) * cc)) ^ 2 + (p * (7 * (1 - hfr) * ss)) ^ 2
        = (p * (7 * (1 - hfr))) ^ 2 := by
      linear_combination (p * (7 * (1 - hfr))) ^ 2 * hcs2
    rw [he]
    nlinarith [hq0, hq1]
  · rw [hsq]
    nlinarith [hu2a]

/-- Witness for photo_chaos_outside_tree at angle 0 (cosine 1, sine 0),
radius draw 0, height draw 0, height fraction 0, cone angle cosine 1 and
push-out 23/20. -/
theorem photo_chaos_outside_tree_witness :
    (photoChaosPos 1 0 0 0).x ^ 2 + (photoChaosPos 1 0 0 0).z ^ 2
      = photoChaosRadius 0 ^ 2 ∧
    14 ≤ photoChaosRadius 0 ∧ photoChaosRadius 0 < 18 ∧
    -10 ≤ (photoChaosPos 1 0 0 0).y ∧ (photoChaosPos 1 0 0 0).y < 10 ∧
    treeOuterRadius < 14 ∧
    (smul (23 / 20) (coneSurfacePoint 18 7 0 1 0)).x ^ 2 +
      (smul (23 / 20) (coneSurfacePoint 18 7 0 1 0)).z ^ 2 ≤ treeOuterRadius ^ 2 ∧
    treeOuterRadius ^ 2 <
      (photoChaosPos 1 0 0 0).x ^ 2 + (photoChaosPos 1 0 0 0).z ^ 2 :=
  photo_chaos_outside_tree 1 0 0 0 0 1 0 (23 / 20)
    (by norm_num) (by norm_num) (by norm_num) (by norm_num) (by norm_num)
    (by norm_num) (by norm_num) (by norm_num) (by norm_num) (by norm_num)

/-- C10 counterexample: with blend initialised to 1 but the external mix
target at 0, the first frame tick with delta 0.1 does not render an object
with distinct chaos and target positions at its target position. -/
theorem initial_blend_counterexample :
    (ornamentFrameTick OrnamentType.BALL
      ⟨⟨0, 0, 0⟩, ⟨1, 0, 0⟩, ⟨0, 0, 0⟩, ⟨1, 1, 1⟩, ⟨1, 1, 1⟩, 0⟩
      (blendStep 1 0 (1 / 10))).1 ≠ (⟨1, 0, 0⟩ : Vec3) := by
  rw [ornamentFrameTick_pos]
  norm_num [blendStep, lerp, min_def, threeLerpVectors, threeLerp, Vec3.mk.injEq]

/-- C10 amended: every smoothed blend state (spiral strip, each Ornaments
population, each PHOTO object) starts at exactly 1, and because the App's
initial external mix target is itself 1 the first frame tick keeps every
blend at exactly 1 and computes every object's rendered position - spiral,
instanced ornament and photo frame alike - exactly at its target position;
this holds because the initial target is 1, not regardless of the initial
target. -/
theorem initial_blend_amended (ty : OrnamentType) (item : OrnamentData)
    (chaos target : Vec3) (dt : ℚ) :
    spiralInitialMix = 1 ∧ photoInitialMix = 1 ∧ ornamentsInitialMix = 1 ∧
    appInitialTargetMix = 1 ∧
    blendStep 1 appInitialTargetMix dt = 1 ∧
    spiralFramePos chaos target (blendStep 1 appInitialTargetMix dt) = target ∧
    (ornamentFrameTick ty item (blendStep 1 appInitialTargetMix dt)).1 = item.targetPos ∧
    photoFramePos item (blendStep 1 appInitialTargetMix dt) = item.targetPos := by
  have hb : blendStep 1 appInitialTargetMix dt = 1 := by
    simp [blendStep, lerp, appInitialTargetMix]
  refine ⟨rfl, rfl, rfl, rfl, hb, ?_, ?_, ?_⟩
  · rw [hb, spiralFramePos_eq chaos target 1 le_rfl, threeLerpVectors_one]
  · rw [hb, ornamentFrameTick_pos, threeLerpVectors_one]
  · rw [hb, photoFramePos, threeLerpVectors_one]
